import Mathlib

/-!
Verification development for the Trip-Algorithm repository.

Shallow embedding of the planning core:
* `src/core/utils/time_core.py`   (TimeCore)
* `src/core/models/place.py`      (PlaceDetail.is_open_at)
* `src/core/evaluator/place_scoring.py` (PlaceScoring)
* `src/core/services/geo_service.py`    (estimator fallback)
* `src/core/utils/cache_decorator.py`   (geo_cache)
* `src/core/planner/strategy.py`  (StandardPlanningStrategy.select_next_place, selection step)
* `src/core/TripPlanner.py`       (plan_trip)
* `src/core/planners/advanced_planner.py` (AdvancedTripPlanner.plan)

Conventions.  Times of day are minutes after midnight; `HH:MM` strings become
their minute value (the regex-validated parse is a bijection onto 0..1439, and
Python `time` objects compare exactly like their minute values).  Python
datetimes that accumulate `timedelta`s are modelled as rational minutes from
the start-of-day of the run; `.time()` is `timeOfDay` (wrap mod 1440) and
`.hour` is `hourOf`.  Haversine distances and provider travel times involve
floating trigonometry or network calls, so the planners take the distance and
travel-time primitives as explicit function parameters; everything else is
embedded concretely.  Python `int()` on the nonnegative values that occur here
is `Int.floor`; `round(x, n)` is modelled with `round` (they differ only on
exact representable halves, which no statement below touches).
-/

/-- `TimeCore.is_time_in_range` (src/core/utils/time_core.py, lines 62-86):
range containment of a time of day, with optional overnight wrap when the
end lies strictly before the start. -/
def isTimeInRange (checkTime startTime endTime : ℕ) (allowOvernight : Bool) : Bool :=
  if !allowOvernight then
    decide (startTime ≤ checkTime ∧ checkTime ≤ endTime)
  else if startTime ≤ endTime then
    decide (startTime ≤ checkTime ∧ checkTime ≤ endTime)
  else
    decide (checkTime ≥ startTime ∨ checkTime ≤ endTime)

/-- One opening slot, already parsed from its `HH:MM` strings: (start, end)
in minutes.  `none` is the `None` sentinel marking a closed day. -/
abbrev HoursSlot := Option (ℕ × ℕ)

/-- The `hours` mapping of a `PlaceDetail`: weekday (1..7) to slot list,
as an association list (Python dict with int keys). -/
abbrev HoursMap := List (ℕ × List HoursSlot)

/-- `PlaceDetail.is_open_at` (src/core/models/place.py, lines 144-168).
Absent day: closed.  Empty slot list or a `None` first slot: closed.
Otherwise open iff some non-null slot contains the time, overnight allowed. -/
def isOpenAt (hours : HoursMap) (day : ℕ) (checkTime : ℕ) : Bool :=
  match hours.lookup day with
  | none => false
  | some timeSlots =>
    if timeSlots.isEmpty then false
    else if timeSlots.head? = some none then false
    else timeSlots.any fun slot =>
      match slot with
      | none => false
      | some (s, e) => isTimeInRange checkTime s e true

/-- A validated catalog record (src/core/models/place.py `PlaceDetail`).
Ratings and coordinates are rationals; `durationMin` keeps the integer field. -/
structure PlaceDetail where
  name : String
  rating : ℚ
  lat : ℚ
  lon : ℚ
  durationMin : ℕ
  label : String
  period : String
  hours : HoursMap
deriving DecidableEq

/-- `ScoreWeights` defaults (src/core/evaluator/place_scoring.py, lines 11-21). -/
structure ScoreWeights where
  ratingWeight : ℚ
  efficiencyWeight : ℚ
  timeSlotWeight : ℚ
  distanceWeight : ℚ
deriving DecidableEq

/-- The default weight set (0.3, 0.3, 0.2, 0.2). -/
def defaultWeights : ScoreWeights :=
  { ratingWeight := 3/10, efficiencyWeight := 3/10
    timeSlotWeight := 2/10, distanceWeight := 2/10 }

/-- `PlaceScoring._calculate_rating_score` (place_scoring.py, lines 111-139).
Rating 0 is falsy in Python, hence the 0.5 default branch. -/
def calculateRatingScore (rating : ℚ) : ℚ :=
  if rating = 0 then 1/2
  else
    let baseScore := min 1 (rating / 5)
    if rating ≥ 9/2 then min 1 (baseScore + (rating - 9/2) * (1/10))
    else baseScore

/-- `PlaceScoring._calculate_efficiency_score` (place_scoring.py, lines 141-176). -/
def calculateEfficiencyScore (durationMin : ℕ) (label : String) (travelTime : ℚ) : ℚ :=
  if travelTime ≤ 0 then 1
  else
    let efficiencyRatio := (durationMin : ℚ) / travelTime
    let expectedRatio :=
      if label = "景點" ∨ label = "主要景點" then (3/2) * (8/10)
      else if label = "餐廳" ∨ label = "小吃" then (3/2) * (12/10)
      else (3/2)
    min 1 (efficiencyRatio / expectedRatio)

/-- Index in the ordered period list `[morning, lunch, afternoon, dinner, night]`
(place_scoring.py, line 206).  Inputs are validated period tags, so the
default branch is never taken on real data. -/
def periodIndex (p : String) : ℕ :=
  if p = "morning" then 0
  else if p = "lunch" then 1
  else if p = "afternoon" then 2
  else if p = "dinner" then 3
  else if p = "night" then 4
  else 0

/-- The period-match base score of `_calculate_time_slot_score`
(place_scoring.py, lines 198-211). -/
def timeSlotBase (currentPeriod placePeriod : String) : ℚ :=
  if currentPeriod = placePeriod then 1
  else
    let d : ℚ := ((periodIndex currentPeriod : ℤ) - (periodIndex placePeriod : ℤ) : ℤ).natAbs
    max (3/10) (1 - d * (2/10))

/-- Line 216 of place_scoring.py: the business-hours fit multiplies only the
period base score, capped at 1, inside `_calculate_time_slot_score`. -/
def timeSlotScore (baseScore hoursFit : ℚ) : ℚ :=
  min 1 (baseScore * hoursFit)

/-- `PlaceScoring._calculate_distance_score` (place_scoring.py, lines 218-252),
with the haversine distance passed in. -/
def calculateDistanceScore (distance threshold : ℚ) (label : String) : ℚ :=
  let adjustedThreshold :=
    if label = "景點" ∨ label = "主要景點" then threshold * (12/10)
    else if label = "餐廳" ∨ label = "小吃" then threshold * (8/10)
    else threshold
  max 0 (min 1 (1 - distance / adjustedThreshold))

/-- `PlaceScoring._normalize_score` (place_scoring.py, lines 379-385). -/
def normalizeScore (score : ℚ) : ℚ :=
  max 0 (min 1 score)

/-- The weighted average of lines 101-107 of place_scoring.py. -/
def weightedScore (w : ScoreWeights) (ratingScore efficiencyScore timeSlotSc distanceScore : ℚ) : ℚ :=
  ratingScore * w.ratingWeight + efficiencyScore * w.efficiencyWeight +
    timeSlotSc * w.timeSlotWeight + distanceScore * w.distanceWeight

/-- The arithmetic of `calculate_score` (lines 92-109) on already-computed
component scores: weighted average of the four components, where the
business-hours fit `hoursFit` enters only through the time-slot component,
then clamped by `_normalize_score`. -/
def calculateScoreFrom (w : ScoreWeights) (ratingScore efficiencyScore baseScore hoursFit distanceScore : ℚ) : ℚ :=
  normalizeScore (weightedScore w ratingScore efficiencyScore (timeSlotScore baseScore hoursFit) distanceScore)

/-- Modelled from the spec: the composite the specification describes, in
which `hours_score` multiplies the whole weighted sum before clamping. -/
def specComposite (w : ScoreWeights) (ratingScore efficiencyScore baseScore hoursFit distanceScore : ℚ) : ℚ :=
  max 0 (min 1 (hoursFit * (ratingScore * w.ratingWeight + efficiencyScore * w.efficiencyWeight +
    baseScore * w.timeSlotWeight + distanceScore * w.distanceWeight)))

/-- A Python runtime error surfaced by the embedding. -/
inductive PyError where
  | attributeError (cls attr : String)
deriving DecidableEq

/-- `PlaceScoring._evaluate_business_hours_fit` (place_scoring.py, lines
254-295).  When the place is closed it returns 0.0; when it is open, line 280
calls `self._get_closing_time`, a method the `PlaceScoring` class does not
define (nor does it inherit one), so the call raises `AttributeError`. -/
def evaluateBusinessHoursFit (place : PlaceDetail) (weekday checkTime : ℕ) : Except PyError ℚ :=
  if isOpenAt place.hours weekday checkTime then
    Except.error (PyError.attributeError "PlaceScoring" "get closing time")
  else
    Except.ok 0

/-- `PlaceScoring.calculate_score` (place_scoring.py, lines 63-109).  Its very
first statement, line 89, evaluates `self._check_business_hours`; the
`PlaceScoring` class defines no such method and inherits none (the only
`_check_business_hours` in the repository sits on `LocationEvaluator` in
src/core/evaluator/location.py), so every call raises `AttributeError` before
any feasibility test or component score is computed.  The weighted-average
code of lines 92-109 is unreachable; its arithmetic is `calculateScoreFrom`. -/
def calculateScore (place currentLocation : PlaceDetail) (currentTime : ℕ) (travelTime : ℚ) : Except PyError ℚ :=
  Except.error (PyError.attributeError "PlaceScoring" "business hours check")

/-- The default mode speed table of `GeoService`
(src/core/services/geo_service.py, lines 32-37), km/h. -/
def defaultSpeeds : List (String × ℚ) :=
  [("driving", 40), ("transit", 30), ("walking", 5), ("bicycling", 15)]

/-- Speed lookup of `_get_estimated_route` (geo_service.py, line 177):
unknown modes fall back to the driving speed. -/
def speedOf (mode : String) : ℚ :=
  (defaultSpeeds.lookup mode).getD 40

/-- Detour factor on the distance (geo_service.py, line 181). -/
def distanceFactor (mode : String) : ℚ :=
  if mode = "driving" then 13/10 else 12/10

/-- Correction factor on the duration (geo_service.py, line 182). -/
def timeFactor (mode : String) : ℚ :=
  if mode = "driving" then 14/10 else 13/10

/-- Python `round(x, 1)`. -/
def round1 (q : ℚ) : ℚ :=
  (round (q * 10) : ℤ) / 10

/-- Result record of the estimator fallback (route_info omitted: always None). -/
structure EstimatedRoute where
  distanceKm : ℚ
  durationMinutes : ℤ
  isEstimated : Bool
deriving DecidableEq

/-- `GeoService._get_estimated_route` (geo_service.py, lines 168-190), taking
the already-computed haversine distance (`calculate_distance`, rounded to one
decimal by line 87) as input.  `duration` is computed from the raw distance
on line 178, before the detour factor is applied to the distance on line 185;
`int()` truncation on the nonnegative duration is the floor. -/
def getEstimatedRoute (distance : ℚ) (mode : String) : EstimatedRoute :=
  let speed := speedOf mode
  let duration := distance / speed * 60
  { distanceKm := round1 (distance * distanceFactor mode)
    durationMinutes := ⌊duration * timeFactor mode⌋
    isEstimated := true }

/-- Modelled from the spec: the duration formula the specification gives,
`(distance_km / speed) * 60 * time_factor` with `distance_km` the
detour-factored distance. -/
def specEstimatorDuration (distance : ℚ) (mode : String) : ℚ :=
  distance * distanceFactor mode / speedOf mode * 60 * timeFactor mode

/-- The cache key of `geo_cache` (src/core/utils/cache_decorator.py, lines
29-34): the exact latitude and longitude of both endpoints plus the mode.
The source interpolates the raw float values into a string; float repr is
injective and the separators cannot occur inside a number, so the tuple is a
faithful model of the string.  `departureTime` (the fourth argument of
`get_route`) is accepted and ignored: `make_cache_key` reads `args[1:4]` only. -/
def makeCacheKey (origin destination : ℚ × ℚ) (mode : String)
    (departureTime : Option ℚ) : (ℚ × ℚ) × (ℚ × ℚ) × String :=
  ((origin.1, origin.2), (destination.1, destination.2), mode)

/-- Python `round(x, 4)`. -/
def round4 (q : ℚ) : ℚ :=
  (round (q * 10000) : ℤ) / 10000

/-- Modelled from the spec: the cache key the specification describes, with
both endpoints rounded to 4 decimals (and still no slot for a depart time,
which the spec says is hour-bucketed when used). -/
def specCacheKey (origin destination : ℚ × ℚ) (mode : String) : (ℚ × ℚ) × (ℚ × ℚ) × String :=
  ((round4 origin.1, round4 origin.2), (round4 destination.1, round4 destination.2), mode)

/-- The cache state of one `geo_cache` wrapper: a Python dict is
insertion-ordered, so an association list appended at the tail. -/
abbrev GeoCache (V : Type) := List ((((ℚ × ℚ) × (ℚ × ℚ) × String)) × V)

/-- One call through the `geo_cache` wrapper (cache_decorator.py, lines
40-56): hit returns the stored value unchanged; miss computes, appends, and
when the dict has grown past `maxsize` evicts `next(iter(cache))` - the
earliest-inserted entry (FIFO; a hit does not refresh recency). -/
def geoCachedCall {V : Type} (maxsize : ℕ)
    (func : (ℚ × ℚ) → (ℚ × ℚ) → String → Option ℚ → V)
    (cache : GeoCache V) (origin destination : ℚ × ℚ) (mode : String)
    (departureTime : Option ℚ) : V × GeoCache V :=
  let key := makeCacheKey origin destination mode departureTime
  match cache.lookup key with
  | some v => (v, cache)
  | none =>
    let result := func origin destination mode departureTime
    let cache1 := cache ++ [(key, result)]
    let cache2 := if maxsize < cache1.length then cache1.drop 1 else cache1
    (result, cache2)

/-- Stable insertion step for a descending sort by score: the incoming
element, which precedes the already-sorted tail in the original list, goes
before the first element whose score does not strictly exceed its own, so
equal scores keep their original order as CPython `list.sort` does. -/
def insertByScoreDesc {α : Type} (x : α × ℚ) : List (α × ℚ) → List (α × ℚ)
  | [] => [x]
  | y :: ys => if y.2 ≤ x.2 then x :: y :: ys else y :: insertByScoreDesc x ys

/-- `scored_places.sort(key=lambda x: x[1], reverse=True)` (strategy.py,
line 252): stable descending sort by score. -/
def sortByScoreDesc {α : Type} : List (α × ℚ) → List (α × ℚ)
  | [] => []
  | x :: xs => insertByScoreDesc x (sortByScoreDesc xs)

/-- The selection step of `StandardPlanningStrategy.select_next_place`
(src/core/planner/strategy.py, lines 247-256): empty scored list returns
None; otherwise sort descending, keep the top three, and return the entry at
the uniformly drawn index `draw` (`random.choice(top_places)` draws an index
below the length of the slice; out-of-range draws never occur at runtime). -/
def selectNextFromScored {α : Type} (scoredPlaces : List (α × ℚ)) (draw : ℕ) : Option α :=
  if scoredPlaces.isEmpty then none
  else
    let topPlaces := (sortByScoreDesc scoredPlaces).take 3
    (topPlaces.get? draw).map Prod.fst

/-- The `hours` value of a `plan_trip` location: the free-form string is
either the all-day sentinel or a parsed `HH:MM - HH:MM` pair (`parse_hours`
maps malformed strings to the all-day pair as well). -/
inductive TripHours where
  | allDay
  | hrange (openTime closeTime : ℕ)
deriving DecidableEq

/-- `parse_hours` (src/tests/utils.py, lines 114-124): the all-day sentinel
becomes 00:00-23:59, a well-formed range parses to its endpoints. -/
def parseHours : TripHours → ℕ × ℕ
  | .allDay => (0, 1439)
  | .hrange o c => (o, c)

/-- A `plan_trip` location dict.  `isMeal`/`mealType` are `none` when the key
is absent; `plan_trip` writes them on selected records (Python stores `None`
for the meal type of a non-meal stop, indistinguishable from an absent key
through `.get`). -/
structure TLoc where
  name : String
  lat : ℚ
  lon : ℚ
  duration : ℚ
  label : String
  hours : TripHours
  isMeal : Option Bool
  mealType : Option String
deriving DecidableEq

/-- One itinerary entry of `plan_trip` (display-only fields omitted). -/
structure TEntry where
  step : ℕ
  name : String
  startTime : ℚ
  endTime : ℚ
  duration : ℚ
  travelTime : ℚ
  isMeal : Bool
  mealType : Option String
deriving DecidableEq

/-- `datetime.hour` of an accumulated clock of `t` minutes. -/
def hourOf (t : ℚ) : ℤ :=
  ⌊t / 60⌋ % 24

/-- `datetime.time()` of an accumulated clock of `t` minutes, as minutes. -/
def timeOfDay (t : ℚ) : ℚ :=
  t - 1440 * ⌊t / 1440⌋

/-- Placeholder record for out-of-range store reads (never reached on the
well-formed index lists `plan_trip` builds). -/
def dfltTLoc : TLoc :=
  { name := "", lat := 0, lon := 0, duration := 0, label := "",
    hours := .allDay, isMeal := none, mealType := none }

/-- Read a location from the shared store.  `plan_trip` aliases dicts between
the caller catalog, `available_locations` and `selected_locations`; the
embedding keeps one store and passes indices. -/
def getLoc (store : List TLoc) (i : ℕ) : TLoc :=
  store.getD i dfltTLoc

/-- The meal-capable labels of `plan_trip` (TripPlanner.py, line 192). -/
def mealLabels : List String := ["餐廳", "小吃", "夜市"]

/-- The meal-window test of TripPlanner.py lines 148-155: returns the meal
label when the hour falls in an unserved lunch (11-13) or dinner (17-18)
window. -/
def mealWindow (hadLunch hadDinner : Bool) (t : ℚ) : Option String :=
  let h := hourOf t
  if !hadLunch ∧ 11 ≤ h ∧ h ≤ 13 then some "午餐"
  else if !hadDinner ∧ 17 ≤ h ∧ h ≤ 18 then some "晚餐"
  else none

/-- Stage-one distance and opening filter of `plan_trip` (TripPlanner.py,
lines 157-186).  The opening test compares the wrapped `.time()` values of
the estimated arrival (3 minutes per kilometre) and departure against the
parsed opening pair. -/
def stage1Filter (dist : ℚ → ℚ → ℚ → ℚ → ℚ) (threshold : ℚ)
    (cur : TLoc) (t : ℚ) (store : List TLoc) (available : List ℕ) : List ℕ :=
  available.filter fun i =>
    let loc := getLoc store i
    let d := dist cur.lat cur.lon loc.lat loc.lon
    let maxDistance := if loc.duration ≥ 90 then threshold * (12/10) else threshold
    if d ≤ maxDistance then
      let oc := parseHours loc.hours
      let estArrival := t + d * 3
      let estDeparture := estArrival + loc.duration
      decide (timeOfDay estArrival ≥ (oc.1 : ℚ) ∧ timeOfDay estDeparture ≤ (oc.2 : ℚ))
    else false

/-- Stage-two evaluation of `plan_trip` (TripPlanner.py, lines 188-232): walk
the filtered candidates in order, skip non-meal labels inside a meal window,
skip departures past the end time, score by dwell over distance times travel
time with the meal boost and long-travel penalties, and keep the strictly
best.  Returns the chosen index with its departure time and efficiency. -/
def stage2Best (dist : ℚ → ℚ → ℚ → ℚ → ℚ) (travel : TLoc → TLoc → ℚ)
    (endTime : ℚ) (isMealTime : Bool) (cur : TLoc) (t : ℚ)
    (store : List TLoc) (candidates : List ℕ) : Option (ℕ × ℚ × ℚ) :=
  candidates.foldl
    (fun best i =>
      let loc := getLoc store i
      if isMealTime ∧ loc.label ∉ mealLabels then best
      else
        let travelTime := travel cur loc
        let departureTime := t + travelTime + loc.duration
        if endTime < departureTime then best
        else
          let d := dist cur.lat cur.lon loc.lat loc.lon
          let eff0 := loc.duration / max (d * travelTime) 1
          let eff1 := if isMealTime ∧ loc.label ∈ mealLabels then eff0 * 2 else eff0
          let eff := if 45 < travelTime then eff1 * (1/2)
                     else if 30 < travelTime then eff1 * (7/10) else eff1
          match best with
          | none => some (i, departureTime, eff)
          | some b => if b.2.2 < eff then some (i, departureTime, eff) else best)
    none

/-- The mutable state of the `plan_trip` selection loop. -/
structure TripState where
  store : List TLoc
  available : List ℕ
  selected : List ℕ
  currentLocation : TLoc
  currentTime : ℚ
  hadLunch : Bool
  hadDinner : Bool

/-- The commit block of the `plan_trip` loop (TripPlanner.py, lines
234-250): mutate the chosen store record in place (`is_meal`, `meal_type`),
mark the meal flag, append to the selected list, remove the index from the
pool, and advance the clock to the recorded departure. -/
def planTripCommit (mw : Option String) (i : ℕ) (departureTime : ℚ) (st : TripState) : TripState :=
  let loc := getLoc st.store i
  let isMealSel := mw.isSome ∧ loc.label ∈ mealLabels
  let loc' := if isMealSel then { loc with isMeal := some true, mealType := mw }
              else { loc with isMeal := some false, mealType := none }
  let hadLunch' := if isMealSel ∧ mw = some "午餐" then true else st.hadLunch
  let hadDinner' := if isMealSel ∧ mw = some "晚餐" then true else st.hadDinner
  { store := st.store.set i loc'
    available := st.available.erase i
    selected := st.selected ++ [i]
    currentLocation := loc'
    currentTime := departureTime
    hadLunch := hadLunch'
    hadDinner := hadDinner' }

/-- The selection loop of `plan_trip` (TripPlanner.py, lines 140-252).  Fuel
counts loop iterations; each productive iteration removes one index from
`available`, so `available.length` fuel is exact. -/
def planTripSelectLoop (dist : ℚ → ℚ → ℚ → ℚ → ℚ) (travel : TLoc → TLoc → ℚ)
    (endTime threshold effThreshold : ℚ) : ℕ → TripState → TripState
  | 0, st => st
  | fuel + 1, st =>
    if st.available = [] ∨ ¬(st.currentTime < endTime) then st
    else
      let mw := mealWindow st.hadLunch st.hadDinner st.currentTime
      let nearby := stage1Filter dist threshold st.currentLocation st.currentTime st.store st.available
      match stage2Best dist travel endTime mw.isSome st.currentLocation st.currentTime st.store nearby with
      | none => st
      | some (i, departureTime, eff) =>
        if eff < effThreshold then st
        else
          planTripSelectLoop dist travel endTime threshold effThreshold fuel
            (planTripCommit mw i departureTime st)

/-- The default start point of `plan_trip` (TripPlanner.py, lines 112-120). -/
def taipeiMainStation : TLoc :=
  { name := "台北車站", lat := 250426731/10000000, lon := 1215170756/10000000,
    duration := 0, label := "交通樞紐", hours := .allDay, isMeal := none, mealType := none }

/-- The selection phase of `plan_trip` (TripPlanner.py, lines 109-252):
resolve the start point, shallow-copy the catalog into the available pool
(same records, modelled as the index range over the shared store), and run
the loop from the start time. -/
def planTripSelect (dist : ℚ → ℚ → ℚ → ℚ → ℚ) (travel : TLoc → TLoc → ℚ)
    (locations : List TLoc) (customStart : Option TLoc)
    (startTime endTime threshold effThreshold : ℚ) : TripState :=
  let startLocation := customStart.getD taipeiMainStation
  planTripSelectLoop dist travel endTime threshold effThreshold locations.length
    { store := locations
      available := List.range locations.length
      selected := []
      currentLocation := startLocation
      currentTime := startTime
      hadLunch := false
      hadDinner := false }

/-- The visit-entry generation loop of `plan_trip` (TripPlanner.py, lines
273-297): replay the selected indices, recomputing travel from the previous
stop; returns the entries plus the final location and clock for the return
leg. -/
def genVisits (travel : TLoc → TLoc → ℚ) (store : List TLoc) :
    TLoc → ℚ → ℕ → List ℕ → List TEntry × TLoc × ℚ
  | cur, t, _, [] => ([], cur, t)
  | cur, t, step, i :: rest =>
    let loc := getLoc store i
    let travelTime := travel cur loc
    let arriveTime := t + travelTime
    let visitEndTime := arriveTime + loc.duration
    let entry : TEntry :=
      { step := step, name := loc.name, startTime := arriveTime,
        endTime := visitEndTime, duration := loc.duration,
        travelTime := travelTime, isMeal := loc.isMeal.getD false,
        mealType := loc.mealType }
    let r := genVisits travel store loc visitEndTime (step + 1) rest
    (entry :: r.1, r.2.1, r.2.2)

/-- The itinerary generation phase of `plan_trip` (TripPlanner.py, lines
254-318): origin entry, one entry per selected location, and, when anything
was selected, a return entry at `current_time + return_travel` - appended
as computed, with no comparison against the end time, no dwell trimming and
no popping. -/
def planTripGenerate (travel : TLoc → TLoc → ℚ) (store : List TLoc)
    (startLocation endLocation : TLoc) (startTime : ℚ) (selected : List ℕ) : List TEntry :=
  let originEntry : TEntry :=
    { step := 0, name := startLocation.name, startTime := startTime,
      endTime := startTime, duration := 0, travelTime := 0,
      isMeal := false, mealType := none }
  let r := genVisits travel store startLocation startTime 1 selected
  if selected = [] then originEntry :: r.1
  else
    let returnTravel := travel r.2.1 endLocation
    let returnTime := r.2.2 + returnTravel
    let returnEntry : TEntry :=
      { step := selected.length + 1, name := endLocation.name,
        startTime := returnTime, endTime := returnTime, duration := 0,
        travelTime := returnTravel, isMeal := false, mealType := none }
    originEntry :: r.1 ++ [returnEntry]

/-- `plan_trip` (src/core/TripPlanner.py, lines 95-318): selection phase then
generation phase.  The second component is the caller-visible catalog after
the call (the store the selection loop mutated in place). -/
def planTrip (dist : ℚ → ℚ → ℚ → ℚ → ℚ) (travel : TLoc → TLoc → ℚ)
    (locations : List TLoc) (customStart customEnd : Option TLoc)
    (startTime endTime threshold effThreshold : ℚ) : List TEntry × List TLoc :=
  let startLocation := customStart.getD taipeiMainStation
  let endLocation := customEnd.getD startLocation
  let st := planTripSelect dist travel locations customStart startTime endTime threshold effThreshold
  (planTripGenerate travel st.store startLocation endLocation startTime st.selected, st.store)

/-- A location dict as `AdvancedTripPlanner.plan` subscripts it: the `hours`
value is the dict format weekday to slot-pair list consumed by
`BusinessHours` (src/core/planners/business_hours.py). -/
structure PLoc where
  name : String
  lat : ℚ
  lon : ℚ
  duration : ℚ
  label : String
  hours : List (ℕ × List (ℕ × ℕ))
deriving DecidableEq

/-- One itinerary entry of `AdvancedTripPlanner.plan` (display-only fields
omitted). -/
structure AEntry where
  step : ℕ
  name : String
  startTime : ℚ
  endTime : ℚ
  duration : ℚ
  travelTime : ℚ
deriving DecidableEq

/-- `datetime.weekday() + 1` of an accumulated clock, given the weekday
(1..7) of the run day. -/
def weekdayOf (baseWeekday : ℕ) (t : ℚ) : ℕ :=
  ((baseWeekday - 1 + (⌊t / 1440⌋).toNat) % 7) + 1

/-- `BusinessHours.is_open_at` (src/core/planners/business_hours.py, lines
11-27): any slot of the current weekday containing the wrapped time of day;
no overnight handling. -/
def businessIsOpenAt (hoursData : List (ℕ × List (ℕ × ℕ))) (baseWeekday : ℕ) (t : ℚ) : Bool :=
  let dailyHours := (hoursData.lookup (weekdayOf baseWeekday t)).getD []
  if dailyHours.isEmpty then false
  else dailyHours.any fun p =>
    decide ((p.1 : ℚ) ≤ timeOfDay t ∧ timeOfDay t ≤ (p.2 : ℚ))

/-- `AdvancedTripPlanner._calculate_time_priority` (advanced_planner.py,
lines 51-70). -/
def timePriority (hadLunch hadDinner : Bool) (t : ℚ) : ℚ :=
  let h := hourOf t
  if 8 ≤ h ∧ h < 11 then 3/2
  else if (11 ≤ h ∧ h < 14) ∨ (17 ≤ h ∧ h < 19) then
    if !(hadLunch ∧ hadDinner) then 2 else 1/2
  else if 14 ≤ h ∧ h < 17 then 1
  else 7/10

/-- `AdvancedTripPlanner._get_adjusted_distance_threshold`
(advanced_planner.py, lines 72-83). -/
def adjustedDistanceThreshold (base : ℚ) (hadLunch hadDinner : Bool)
    (label : String) (t : ℚ) : ℚ :=
  let tf := timePriority hadLunch hadDinner t
  if label = "景點" ∨ label = "公園" then base * (3/2) * tf
  else if label = "小吃" ∨ label = "餐廳" then base * (8/10) * tf
  else base * tf

/-- `AdvancedTripPlanner._is_meal_time` (advanced_planner.py, lines 214-224). -/
def aIsMealTime (hadLunch hadDinner : Bool) (t : ℚ) : Bool :=
  let h := hourOf t
  if !hadLunch ∧ 11 ≤ h ∧ h ≤ 13 then true
  else if !hadDinner ∧ 17 ≤ h ∧ h ≤ 19 then true
  else false

/-- `AdvancedTripPlanner._calculate_location_score` (advanced_planner.py,
lines 138-175).  `none` is the `-inf` returned for the current location
itself; otherwise dwell over clamped distance times clamped travel time,
scaled by the time priority and the label factor. -/
def locationScore (dist : PLoc → PLoc → ℚ) (hadLunch hadDinner : Bool)
    (location currentLocation : PLoc) (travelTime t : ℚ) : Option ℚ :=
  if currentLocation = location then none
  else
    let d := dist currentLocation location
    let baseEfficiency := location.duration / (max d (1/10) * max travelTime 1)
    let tf := timePriority hadLunch hadDinner t
    let typeFactor :=
      if location.label = "景點" ∨ location.label = "公園" then
        if 9 ≤ hourOf t ∧ hourOf t ≤ 16 then 3/2 else 1
      else if location.label = "餐廳" ∨ location.label = "小吃" then
        if aIsMealTime hadLunch hadDinner t then 2 else 3/10
      else 1
    some (baseEfficiency * tf * typeFactor)

/-- `score > best_score` with `-inf` as `none`. -/
def scoreBetter (newScore best : Option ℚ) : Bool :=
  match newScore, best with
  | none, _ => false
  | some _, none => true
  | some x, some b => decide (b < x)

/-- `AdvancedTripPlanner._has_enough_time` (advanced_planner.py, lines
109-136): travel plus dwell plus a 30-minute buffer must fit the remaining
time. -/
def hasEnoughTime (travel : PLoc → PLoc → ℚ) (endTime : ℚ)
    (currentLocation location : PLoc) (t : ℚ) : Bool :=
  decide (endTime - t ≥ travel currentLocation location + location.duration + 30)

/-- `AdvancedTripPlanner._find_best_next_location` (advanced_planner.py,
lines 177-212): filter by the adjusted distance threshold, skip candidates
without enough time or closed at the truncated-travel arrival, and keep the
strictly best scored one. -/
def findBestNext (dist : PLoc → PLoc → ℚ) (travel : PLoc → PLoc → ℚ)
    (baseWeekday : ℕ) (endTime threshold : ℚ) (hadLunch hadDinner : Bool)
    (available : List PLoc) (currentLocation : PLoc) (t : ℚ) : Option PLoc :=
  let nearby := available.filter fun loc =>
    decide (dist currentLocation loc ≤ adjustedDistanceThreshold threshold hadLunch hadDinner loc.label t)
  (nearby.foldl
    (fun best loc =>
      if !hasEnoughTime travel endTime currentLocation loc t then best
      else
        let travelTime := travel currentLocation loc
        let arrivalTime := t + (⌊travelTime⌋ : ℚ)
        if !businessIsOpenAt loc.hours baseWeekday arrivalTime then best
        else
          let score := locationScore dist hadLunch hadDinner loc currentLocation travelTime t
          if scoreBetter score best.2 then (some loc, score) else best)
    (none, none)).1

/-- `AdvancedTripPlanner._update_meal_status` (advanced_planner.py, lines
226-233), applied at the arrival time. -/
def updateMealStatus (hadLunch hadDinner : Bool) (label : String) (t : ℚ) : Bool × Bool :=
  if label = "餐廳" ∨ label = "小吃" ∨ label = "夜市" then
    let h := hourOf t
    if 11 ≤ h ∧ h ≤ 13 then (true, hadDinner)
    else if 17 ≤ h ∧ h ≤ 19 then (hadLunch, true)
    else (hadLunch, hadDinner)
  else (hadLunch, hadDinner)

/-- The main loop of `AdvancedTripPlanner.plan` (advanced_planner.py, lines
255-296).  Fuel counts iterations; each productive one erases the chosen
location from the pool.  A visit whose end would pass the end time breaks
the loop; accepted visits advance the clock to their end. -/
def advancedPlanLoop (dist : PLoc → PLoc → ℚ) (travel : PLoc → PLoc → ℚ)
    (baseWeekday : ℕ) (endTime threshold : ℚ) :
    ℕ → List PLoc → PLoc → ℚ → Bool → Bool → List AEntry → List AEntry × PLoc × ℚ
  | 0, _, currentLocation, t, _, _, acc => (acc, currentLocation, t)
  | fuel + 1, available, currentLocation, t, hadLunch, hadDinner, acc =>
    if available = [] ∨ ¬(t < endTime) then (acc, currentLocation, t)
    else
      match findBestNext dist travel baseWeekday endTime threshold hadLunch hadDinner available currentLocation t with
      | none => (acc, currentLocation, t)
      | some best =>
        let travelTime := travel currentLocation best
        let arrivalTime := t + (⌊travelTime⌋ : ℚ)
        let visitEndTime := arrivalTime + best.duration
        if endTime < visitEndTime then (acc, currentLocation, t)
        else
          let meals := updateMealStatus hadLunch hadDinner best.label arrivalTime
          let entry : AEntry :=
            { step := acc.length, name := best.name, startTime := arrivalTime,
              endTime := visitEndTime, duration := best.duration, travelTime := travelTime }
          advancedPlanLoop dist travel baseWeekday endTime threshold fuel
            (available.erase best) best visitEndTime meals.1 meals.2 (acc ++ [entry])

/-- `AdvancedTripPlanner.plan` (src/core/planners/advanced_planner.py, lines
235-319): origin entry, main loop, then the terminal step of lines 298-317 -
when the current location differs from the end location, a return entry
whose arrival is computed from the travel time and then capped at the end
time (`if arrival_time > self.end_datetime: arrival_time = self.end_datetime`). -/
def advancedPlan (dist : PLoc → PLoc → ℚ) (travel : PLoc → PLoc → ℚ)
    (baseWeekday : ℕ) (startLocation endLocation : PLoc)
    (availableLocations : List PLoc) (startTime endTime threshold : ℚ) : List AEntry :=
  let originEntry : AEntry :=
    { step := 0, name := startLocation.name, startTime := startTime,
      endTime := startTime, duration := 0, travelTime := 0 }
  let r := advancedPlanLoop dist travel baseWeekday endTime threshold
    availableLocations.length availableLocations startLocation startTime false false [originEntry]
  let acc := r.1
  let currentLocation := r.2.1
  let t := r.2.2
  if currentLocation ≠ endLocation then
    let travelTime := travel currentLocation endLocation
    let arrival0 := t + (⌊travelTime⌋ : ℚ)
    let arrivalTime := if endTime < arrival0 then endTime else arrival0
    acc ++ [{ step := acc.length, name := endLocation.name, startTime := arrivalTime,
              endTime := arrivalTime, duration := 0, travelTime := travelTime }]
  else acc

/-! Concrete fixtures used by counterexamples and witnesses. -/

/-- A start point for concrete `plan_trip` runs. -/
def exStart : TLoc :=
  { name := "S", lat := 0, lon := 0, duration := 0, label := "起點",
    hours := .allDay, isMeal := none, mealType := none }

/-- A single catalog location with a three-hour dwell. -/
def exLocA : TLoc :=
  { name := "A", lat := 1, lon := 1, duration := 180, label := "景點",
    hours := .allDay, isMeal := none, mealType := none }

/-- A second catalog location, placed out of range by `exDist`. -/
def exLocB : TLoc :=
  { name := "B", lat := 2, lon := 2, duration := 60, label := "景點",
    hours := .allDay, isMeal := none, mealType := none }

/-- A concrete distance oracle: 100 km to latitude 2, otherwise 1 km. -/
def exDist : ℚ → ℚ → ℚ → ℚ → ℚ := fun _ _ lat2 _ => if lat2 = 2 then 100 else 1

/-- A concrete travel oracle: 500 minutes leaving latitude 1 (location A),
otherwise 10 - the return leg overshoots the 20:00 end by 30 minutes. -/
def exTravelLong : TLoc → TLoc → ℚ := fun a _ => if a.lat = 1 then 500 else 10

/-- A concrete travel oracle overshooting the end time by 20 minutes. -/
def exTravelShort : TLoc → TLoc → ℚ := fun a _ => if a.lat = 1 then 490 else 10

/-- Monday slot list starting with the `None` sentinel followed by a live
10:00-12:00 slot. -/
def exHoursLeadingNull : HoursMap := [(1, [none, some (600, 720)])]

/-- Monday overnight slot 17:00-02:00. -/
def exHoursOvernight : HoursMap := [(1, [some (1020, 120)])]

/-- A start point for concrete `AdvancedTripPlanner` runs. -/
def exPStart : PLoc :=
  { name := "P", lat := 0, lon := 0, duration := 0, label := "起點", hours := [] }

/-- A cached route value for the `geo_cache` witness. -/
def exCache : GeoCache ℚ := [(makeCacheKey (1, 2) (3, 4) "driving" none, 42)]

/-! Theorems. -/

/-- Overnight-aware containment (`allow_overnight=True`) spelt out. -/
theorem isTimeInRange_overnight_iff (t s e : ℕ) :
    isTimeInRange t s e true = true ↔
      ((s ≤ e ∧ s ≤ t ∧ t ≤ e) ∨ (e < s ∧ (s ≤ t ∨ t ≤ e))) := by
  unfold isTimeInRange
  by_cases h : s ≤ e
  · simp only [Bool.not_true, Bool.false_eq_true, if_false, if_pos h, decide_eq_true_eq]
    omega
  · simp only [Bool.not_true, Bool.false_eq_true, if_false, if_neg h, decide_eq_true_eq]
    omega

/-- Claim C3 (code_bug evidence): every call of
`PlaceScoring.calculate_score` fails with `AttributeError` - line 89
evaluates `self._check_business_hours`, which the class neither defines nor
inherits - so the method never returns negative infinity nor a score; the
docstring (lines 79-80) promises a float in 0..1 or -inf, and the claimed
departure-past-end and distance-threshold checks appear nowhere in it. -/
theorem calculateScore_always_attribute_error :
    ∀ (place currentLocation : PlaceDetail) (currentTime : ℕ) (travelTime : ℚ),
      calculateScore place currentLocation currentTime travelTime =
        Except.error (PyError.attributeError "PlaceScoring" "business hours check") :=
  fun _ _ _ _ => rfl

/-- Claim C4 (counterexample): at a haversine distance of 10 km in driving
mode the code returns 21 minutes, while the spec formula computed from the
detour-factored distance gives 27.3 (floor 27). -/
theorem estimator_duration_differs_from_spec_formula :
    (getEstimatedRoute 10 "driving").durationMinutes = 21 ∧
      specEstimatorDuration 10 "driving" = 273/10 ∧
      ⌊specEstimatorDuration 10 "driving"⌋ = 27 ∧ (21 : ℤ) ≠ 27 := by
  refine ⟨?_, ?_, ?_, by norm_num⟩
  · norm_num [getEstimatedRoute, speedOf, defaultSpeeds, timeFactor, distanceFactor, round1]
  · norm_num [specEstimatorDuration, speedOf, defaultSpeeds, timeFactor, distanceFactor]
  · norm_num [specEstimatorDuration, speedOf, defaultSpeeds, timeFactor, distanceFactor]

/-- Claim C4 (amended): the estimator fallback returns
`distance_km = round(haversine * distance_factor, 1)` and
`duration_min = int(haversine / speed * 60 * time_factor)` - the duration is
computed from the raw haversine distance, not the detour-factored one - with
speeds driving 40, transit 30, walking 5, bicycling 15 km/h and factors
driving x1.3/x1.4, others x1.2/x1.3. -/
theorem getEstimatedRoute_closed_form :
    ∀ (d : ℚ) (m : String),
      (getEstimatedRoute d m).durationMinutes = ⌊d / speedOf m * 60 * timeFactor m⌋ ∧
      (getEstimatedRoute d m).distanceKm = round1 (d * distanceFactor m) ∧
      speedOf "driving" = 40 ∧ speedOf "transit" = 30 ∧
      speedOf "walking" = 5 ∧ speedOf "bicycling" = 15 ∧
      distanceFactor "driving" = 13/10 ∧ timeFactor "driving" = 14/10 ∧
      distanceFactor "transit" = 12/10 ∧ timeFactor "transit" = 13/10 :=
  fun d m =>
    ⟨rfl, rfl, rfl, rfl, rfl, rfl, rfl, rfl, rfl, rfl⟩

/-- Claim C5 (counterexample): on component scores rating 1, efficiency 1,
period base 1, business-hours fit 1/2, distance 1 with the default weights,
the code computes 9/10 - the fit only caps the time-slot term - whereas the
claimed hours-times-whole-composite formula gives 1/2. -/
theorem composite_hours_multiplies_time_slot_only :
    calculateScoreFrom defaultWeights 1 1 1 (1/2) 1 = 9/10 ∧
      specComposite defaultWeights 1 1 1 (1/2) 1 = 1/2 ∧
      ((9 : ℚ)/10 ≠ 1/2) := by
  refine ⟨?_, ?_, by norm_num⟩
  · norm_num [calculateScoreFrom, defaultWeights, normalizeScore, weightedScore, timeSlotScore]
  · norm_num [specComposite, defaultWeights]

/-- Claim C5 (amended): the composite equals the weighted sum of the four
component scores with weights 0.3/0.3/0.2/0.2, where the business-hours fit
multiplies only the period base score inside the time-slot component (capped
at 1) rather than the whole composite, and the result is clamped to [0,1]. -/
theorem calculateScoreFrom_closed_form :
    ∀ (w : ScoreWeights) (r e b h d : ℚ),
      calculateScoreFrom w r e b h d =
        max 0 (min 1 (r * w.ratingWeight + e * w.efficiencyWeight +
          min 1 (b * h) * w.timeSlotWeight + d * w.distanceWeight)) ∧
      0 ≤ calculateScoreFrom w r e b h d ∧ calculateScoreFrom w r e b h d ≤ 1 := by
  intro w r e b h d
  unfold calculateScoreFrom normalizeScore weightedScore timeSlotScore
  exact ⟨rfl, le_max_left _ _, max_le (by norm_num) (min_le_left _ _)⟩

/-- Claim C6 (counterexample): `select_next_place` on the same scored input
returns A under draw 0 and B under draw 1 - the draw comes from the global
`random.choice`, not from the inputs, and no `top_k` switch exists - so two
runs on identical inputs need not return identical itineraries. -/
theorem select_next_place_draw_dependent :
    selectNextFromScored [("A", (9:ℚ)/10), ("B", 8/10)] 0 = some "A" ∧
      selectNextFromScored [("A", (9:ℚ)/10), ("B", 8/10)] 1 = some "B" ∧
      "A" ≠ "B" := by
  refine ⟨?_, ?_, by decide⟩
  · norm_num [selectNextFromScored, sortByScoreDesc, insertByScoreDesc]
  · norm_num [selectNextFromScored, sortByScoreDesc, insertByScoreDesc]

/-- Claim C6 (amended): the standard strategy has no `top_k` parameter and
always draws uniformly from the top three scored candidates; the selection
is independent of the draw only in the degenerate case of at most one scored
candidate (and, for a fixed draw, it is a pure function of its inputs). -/
theorem select_next_place_deterministic_when_single {α : Type}
    (scored : List (α × ℚ)) (d₁ d₂ : ℕ) (hlen : scored.length ≤ 1)
    (h₁ : d₁ < ((sortByScoreDesc scored).take 3).length)
    (h₂ : d₂ < ((sortByScoreDesc scored).take 3).length) :
    selectNextFromScored scored d₁ = selectNextFromScored scored d₂ := by
  match scored with
  | [] => rfl
  | [x] =>
    have e₁ : d₁ = 0 := by
      have h : ((sortByScoreDesc [x]).take 3).length = 1 := rfl
      omega
    have e₂ : d₂ = 0 := by
      have h : ((sortByScoreDesc [x]).take 3).length = 1 := rfl
      omega
    rw [e₁, e₂]
  | x :: y :: rest => simp at hlen

/-- Witness for the single-candidate determinism theorem at a concrete
one-element scored list. -/
theorem select_next_place_single_witness :
    ([("A", (1:ℚ))] : List (String × ℚ)).length ≤ 1 ∧
      0 < ((sortByScoreDesc [("A", (1:ℚ))]).take 3).length ∧
      selectNextFromScored [("A", (1:ℚ))] 0 = selectNextFromScored [("A", (1:ℚ))] 0 :=
  ⟨by norm_num, by norm_num [sortByScoreDesc, insertByScoreDesc],
    select_next_place_deterministic_when_single [("A", (1:ℚ))] 0 0
      (by norm_num) (by norm_num [sortByScoreDesc, insertByScoreDesc])
      (by norm_num [sortByScoreDesc, insertByScoreDesc])⟩

/-- Claim C10: a slot list whose first element is the `None` sentinel makes
`is_open_at` return false for every query time of that day, even when a
later non-null slot contains the time. -/
theorem isOpenAt_first_null_day_closed :
    ∀ (hours : HoursMap) (day t : ℕ) (timeSlots : List HoursSlot),
      hours.lookup day = some timeSlots → timeSlots.head? = some none →
      isOpenAt hours day t = false := by
  intro hours day t timeSlots h1 h2
  unfold isOpenAt
  rw [h1]
  by_cases he : timeSlots.isEmpty
  · simp [he]
  · simp [he, h2]

/-- Witness for the null-first-slot theorem: Monday `[None, 10:00-12:00]`
queried at 11:00 (inside the later slot) reports closed. -/
theorem isOpenAt_first_null_witness :
    exHoursLeadingNull.lookup 1 = some [none, some (600, 720)] ∧
      ([none, some (600, 720)] : List HoursSlot).head? = some none ∧
      isOpenAt exHoursLeadingNull 1 660 = false :=
  ⟨by decide, by decide,
    isOpenAt_first_null_day_closed exHoursLeadingNull 1 660 [none, some (600, 720)]
      (by decide) (by decide)⟩

/-- Claim C7 (counterexample): with Monday hours `[None, {10:00, 12:00}]`, a
non-null slot of the day contains 11:00, yet `is_open_at` returns false, so
the biconditional of the claim fails as stated. -/
theorem isOpenAt_leading_null_blocks_later_slot :
    isOpenAt exHoursLeadingNull 1 660 = false ∧
      exHoursLeadingNull.lookup 1 = some [none, some (600, 720)] ∧
      some (600, 720) ∈ [none, some (600, 720)] ∧
      (600 ≤ 660 ∧ 660 ≤ 720) := by
  refine ⟨by decide, by decide, by decide, by decide⟩

/-- Claim C7 (amended): `is_open_at(day, t)` returns true iff the day is
present, its slot list is nonempty, its first slot is not the `None`
sentinel, and some non-null slot contains `t` with overnight wrap (a slot
with `end < start` contains `t` iff `t ≥ start` or `t ≤ end`); it returns
false when the day is absent, empty, or its first slot is `None`; in
particular the Monday 17:00-02:00 POI reads open at 23:30 Monday. -/
theorem isOpenAt_characterization :
    (∀ (hours : HoursMap) (day t : ℕ),
        isOpenAt hours day t = true ↔
          ∃ timeSlots, hours.lookup day = some timeSlots ∧ timeSlots ≠ [] ∧
            timeSlots.head? ≠ some none ∧
            ∃ s e, some (s, e) ∈ timeSlots ∧
              ((s ≤ e ∧ s ≤ t ∧ t ≤ e) ∨ (e < s ∧ (s ≤ t ∨ t ≤ e)))) ∧
      isOpenAt exHoursOvernight 1 1410 = true := by
  refine ⟨fun hours day t => ?_, by decide⟩
  unfold isOpenAt
  cases hl : hours.lookup day with
  | none => simp
  | some timeSlots =>
    by_cases he : timeSlots.isEmpty
    · rw [List.isEmpty_iff] at he
      simp [he]
    · rw [List.isEmpty_iff] at he
      by_cases hh : timeSlots.head? = some none
      · simp only [List.isEmpty_eq_true, he, if_false, hh, if_pos, if_true]
        constructor
        · intro h
          exact absurd h (by simp)
        · rintro ⟨ts, hts, -, hhd, -⟩
          cases hts
          exact absurd hh hhd
      · simp only [List.isEmpty_eq_true, he, if_false, hh, if_neg, List.any_eq_true]
        constructor
        · rintro ⟨slot, hmem, hslot⟩
          match slot with
          | none => exact absurd hslot (by simp)
          | some (s, e) =>
            exact ⟨timeSlots, rfl, he, hh, s, e, hmem,
              (isTimeInRange_overnight_iff t s e).mp hslot⟩
        · rintro ⟨ts, hts, -, -, s, e, hmem, hcond⟩
          cases hts
          exact ⟨some (s, e), hmem, (isTimeInRange_overnight_iff t s e).mpr hcond⟩

/-- Claim C8 (counterexample): two origins that agree after rounding to 4
decimals produce different cache keys - the key interpolates the exact
coordinates, unrounded - while the key the spec describes identifies them. -/
theorem makeCacheKey_unrounded_vs_spec :
    makeCacheKey (25 + 1/100000, 121) (24, 120) "driving" none ≠
        makeCacheKey (25 + 2/100000, 121) (24, 120) "driving" none ∧
      specCacheKey (25 + 1/100000, 121) (24, 120) "driving" =
        specCacheKey (25 + 2/100000, 121) (24, 120) "driving" := by
  constructor
  · intro h
    have := congrArg (fun k => k.1.1) h
    norm_num [makeCacheKey] at this
  · norm_num [specCacheKey, round4, round_eq, Prod.ext_iff]

/-- Claim C8 (amended): `get_route` calls are memoized per `GeoService`
wrapper in an insertion-ordered dict (size bound from the decorator, 256 on
the live definition); the key is the exact coordinate string of both
endpoints plus the mode, the departure time is ignored, eviction drops the
earliest-inserted entry (FIFO, not LRU), and a call whose key is present
returns the cached value and leaves the cache unchanged. -/
theorem geoCachedCall_hit_returns_cached {V : Type} (maxsize : ℕ)
    (func : (ℚ × ℚ) → (ℚ × ℚ) → String → Option ℚ → V)
    (cache : GeoCache V) (origin destination : ℚ × ℚ) (mode : String)
    (departureTime : Option ℚ) (v : V)
    (h : cache.lookup (makeCacheKey origin destination mode departureTime) = some v) :
    geoCachedCall maxsize func cache origin destination mode departureTime = (v, cache) := by
  simp only [geoCachedCall, h]

/-- Witness for the cache-hit theorem on a concrete one-entry cache. -/
theorem geoCachedCall_hit_witness :
    exCache.lookup (makeCacheKey (1, 2) (3, 4) "driving" none) = some 42 ∧
      geoCachedCall 128 (fun _ _ _ _ => (0:ℚ)) exCache (1, 2) (3, 4) "driving" none =
        (42, exCache) :=
  ⟨rfl,
    geoCachedCall_hit_returns_cached 128 (fun _ _ _ _ => (0:ℚ)) exCache
      (1, 2) (3, 4) "driving" none 42 rfl⟩

/-- The visit entries generated by `plan_trip` carry exactly the dwell of
their selected locations, in order. -/
theorem genVisits_map_duration (travel : TLoc → TLoc → ℚ) (store : List TLoc) :
    ∀ (selected : List ℕ) (cur : TLoc) (t : ℚ) (step : ℕ),
      ((genVisits travel store cur t step selected).1).map TEntry.duration =
        selected.map (fun i => (getLoc store i).duration) := by
  intro selected
  induction selected with
  | nil => intro cur t step; rfl
  | cons i rest ih =>
    intro cur t step
    simp only [genVisits, List.map_cons]
    rw [ih]

/-- Claim C1 (amended): the return-leg phase of `plan_trip` never adjusts
the itinerary - the generated step list is the origin (dwell 0), one entry
per selected location carrying its full, untrimmed dwell, and (when any
visit was selected) a return entry with dwell 0 whose time is taken as
computed; no dwell is decremented, no visit is popped, and no failure value
exists, so the caller always receives this complete list. -/
theorem planTrip_return_leg_no_adjustment (travel : TLoc → TLoc → ℚ)
    (store : List TLoc) (startLocation endLocation : TLoc) (startTime : ℚ)
    (selected : List ℕ) :
    (planTripGenerate travel store startLocation endLocation startTime selected).map TEntry.duration =
      0 :: (selected.map (fun i => (getLoc store i).duration) ++
        if selected = [] then [] else [0]) := by
  unfold planTripGenerate
  by_cases hs : selected = []
  · subst hs
    rfl
  · rw [if_neg hs, if_neg hs]
    simp only [List.map_cons, List.map_append, List.map_cons, List.map_nil]
    rw [genVisits_map_duration, List.cons_append]

/-- Invariant of the `AdvancedTripPlanner.plan` main loop: when the clock and
every accumulated entry respect the end time, so do the loop result and the
final clock (the loop breaks before committing any visit ending later). -/
theorem advancedPlanLoop_le_end (dist travel : PLoc → PLoc → ℚ) (baseWeekday : ℕ)
    (endTime threshold : ℚ) :
    ∀ (fuel : ℕ) (available : List PLoc) (currentLocation : PLoc) (t : ℚ)
      (hadLunch hadDinner : Bool) (acc : List AEntry),
      t ≤ endTime → (∀ e ∈ acc, e.endTime ≤ endTime) →
      (∀ e ∈ (advancedPlanLoop dist travel baseWeekday endTime threshold fuel
          available currentLocation t hadLunch hadDinner acc).1, e.endTime ≤ endTime) ∧
        (advancedPlanLoop dist travel baseWeekday endTime threshold fuel
          available currentLocation t hadLunch hadDinner acc).2.2 ≤ endTime := by
  intro fuel
  induction fuel with
  | zero =>
    intro available cur t hL hD acc ht hacc
    exact ⟨hacc, ht⟩
  | succ n ih =>
    intro available cur t hL hD acc ht hacc
    rw [advancedPlanLoop]
    by_cases h1 : available = [] ∨ ¬(t < endTime)
    · rw [if_pos h1]
      exact ⟨hacc, ht⟩
    · rw [if_neg h1]
      cases hfb : findBestNext dist travel baseWeekday endTime threshold hL hD available cur t with
      | none => exact ⟨hacc, ht⟩
      | some best =>
        dsimp only
        by_cases h2 : endTime < t + (⌊travel cur best⌋ : ℚ) + best.duration
        · rw [if_pos h2]
          exact ⟨hacc, ht⟩
        · rw [if_neg h2]
          apply ih
          · exact le_of_not_lt h2
          · intro e he
            rcases List.mem_append.mp he with hin | hin
            · exact hacc e hin
            · rw [List.mem_singleton] at hin
              subst hin
              exact le_of_not_lt h2

/-- Claim C2 (amended): every entry of an `AdvancedTripPlanner.plan`
itinerary - in particular the final return step, whose arrival lines 305-306
cap at `end_datetime` - ends no later than the requested end time, provided
the start time does not already exceed it.  (`plan_trip` gives no such
guarantee: its return step is appended uncapped.) -/
theorem advancedPlan_all_entries_within_end_time
    (dist travel : PLoc → PLoc → ℚ) (baseWeekday : ℕ)
    (startLocation endLocation : PLoc) (availableLocations : List PLoc)
    (startTime endTime threshold : ℚ) (h : startTime ≤ endTime) :
    (advancedPlan dist travel baseWeekday startLocation endLocation availableLocations
        startTime endTime threshold).all (fun e => decide (e.endTime ≤ endTime)) = true := by
  rw [List.all_eq_true]
  intro e he
  rw [decide_eq_true_eq]
  have hmain := advancedPlanLoop_le_end dist travel baseWeekday endTime threshold
    availableLocations.length availableLocations startLocation startTime false false
    [{ step := 0, name := startLocation.name, startTime := startTime,
       endTime := startTime, duration := 0, travelTime := 0 }] h
    (by
      intro e' he'
      rw [List.mem_singleton] at he'
      subst he'
      exact h)
  unfold advancedPlan at he
  dsimp only at he
  by_cases hc :
      (advancedPlanLoop dist travel baseWeekday endTime threshold
        availableLocations.length availableLocations startLocation startTime false false
        [{ step := 0, name := startLocation.name, startTime := startTime,
           endTime := startTime, duration := 0, travelTime := 0 }]).2.1 ≠ endLocation
  · rw [if_pos hc] at he
    rcases List.mem_append.mp he with hin | hin
    · exact hmain.1 e hin
    · rw [List.mem_singleton] at hin
      subst hin
      dsimp only
      by_cases hcl : endTime <
          (advancedPlanLoop dist travel baseWeekday endTime threshold
            availableLocations.length availableLocations startLocation startTime false false
            [{ step := 0, name := startLocation.name, startTime := startTime,
               endTime := startTime, duration := 0, travelTime := 0 }]).2.2 +
            (⌊travel (advancedPlanLoop dist travel baseWeekday endTime threshold
              availableLocations.length availableLocations startLocation startTime false false
              [{ step := 0, name := startLocation.name, startTime := startTime,
                 endTime := startTime, duration := 0, travelTime := 0 }]).2.1 endLocation⌋ : ℚ)
      · rw [if_pos hcl]
      · rw [if_neg hcl]
        exact le_of_not_lt hcl
  · rw [if_neg hc] at he
    exact hmain.1 e he

/-- Witness for the advanced-planner end-time bound on a concrete empty run. -/
theorem advancedPlan_within_end_time_witness :
    ((540:ℚ) ≤ 1200) ∧
      (advancedPlan (fun _ _ => 1) (fun _ _ => 1) 1 exPStart exPStart [] 540 1200 30).all
        (fun e => decide (e.endTime ≤ 1200)) = true :=
  ⟨by norm_num,
    advancedPlan_all_entries_within_end_time (fun _ _ => 1) (fun _ _ => 1) 1
      exPStart exPStart [] 540 1200 30 (by norm_num)⟩

/-- The `plan_trip` selection loop only appends to the selected list. -/
theorem planTripSelectLoop_selected_extends (dist : ℚ → ℚ → ℚ → ℚ → ℚ)
    (travel : TLoc → TLoc → ℚ) (endTime threshold effThreshold : ℚ) :
    ∀ (fuel : ℕ) (st : TripState),
      ∃ tail, (planTripSelectLoop dist travel endTime threshold effThreshold fuel st).selected =
        st.selected ++ tail := by
  intro fuel
  induction fuel with
  | zero =>
    intro st
    exact ⟨[], (List.append_nil _).symm⟩
  | succ n ih =>
    intro st
    rw [planTripSelectLoop]
    by_cases h1 : st.available = [] ∨ ¬(st.currentTime < endTime)
    · rw [if_pos h1]
      exact ⟨[], (List.append_nil _).symm⟩
    · rw [if_neg h1]
      dsimp only
      cases hsb : stage2Best dist travel endTime
          (mealWindow st.hadLunch st.hadDinner st.currentTime).isSome st.currentLocation
          st.currentTime st.store
          (stage1Filter dist threshold st.currentLocation st.currentTime st.store st.available) with
      | none => exact ⟨[], (List.append_nil _).symm⟩
      | some b =>
        obtain ⟨i, departureTime, eff⟩ := b
        dsimp only
        by_cases h2 : eff < effThreshold
        · rw [if_pos h2]
          exact ⟨[], (List.append_nil _).symm⟩
        · rw [if_neg h2]
          obtain ⟨tail, htail⟩ := ih (planTripCommit
            (mealWindow st.hadLunch st.hadDinner st.currentTime) i departureTime st)
          refine ⟨i :: tail, ?_⟩
          rw [htail]
          simp [planTripCommit]

/-- The `plan_trip` selection loop rewrites store entries only at indices it
selects; every other index keeps its record. -/
theorem planTripSelectLoop_frame (dist : ℚ → ℚ → ℚ → ℚ → ℚ)
    (travel : TLoc → TLoc → ℚ) (endTime threshold effThreshold : ℚ) :
    ∀ (fuel : ℕ) (st : TripState) (j : ℕ),
      j ∉ (planTripSelectLoop dist travel endTime threshold effThreshold fuel st).selected →
      (planTripSelectLoop dist travel endTime threshold effThreshold fuel st).store[j]? =
        st.store[j]? := by
  intro fuel
  induction fuel with
  | zero =>
    intro st j _
    rfl
  | succ n ih =>
    intro st j hj
    rw [planTripSelectLoop] at hj ⊢
    by_cases h1 : st.available = [] ∨ ¬(st.currentTime < endTime)
    · rw [if_pos h1]
    · rw [if_neg h1] at hj ⊢
      dsimp only at hj ⊢
      cases hsb : stage2Best dist travel endTime
          (mealWindow st.hadLunch st.hadDinner st.currentTime).isSome st.currentLocation
          st.currentTime st.store
          (stage1Filter dist threshold st.currentLocation st.currentTime st.store st.available) with
      | none =>
        rfl
      | some b =>
        obtain ⟨i, departureTime, eff⟩ := b
        rw [hsb] at hj
        dsimp only at hj ⊢
        by_cases h2 : eff < effThreshold
        · rw [if_pos h2]
        · rw [if_neg h2] at hj ⊢
          have hji : i ≠ j := by
            intro hij
            subst hij
            obtain ⟨tail, htail⟩ := planTripSelectLoop_selected_extends dist travel
              endTime threshold effThreshold n
              (planTripCommit (mealWindow st.hadLunch st.hadDinner st.currentTime) i
                departureTime st)
            rw [htail] at hj
            refine hj ?_
            have : (planTripCommit (mealWindow st.hadLunch st.hadDinner st.currentTime) i
                departureTime st).selected = st.selected ++ [i] := rfl
            rw [this]
            simp
          rw [ih _ j hj]
          exact List.getElem?_set_ne hji

/-- Claim C9 (amended): after the `plan_trip` selection phase, every catalog
record whose index was never selected is unchanged; the selected records are
mutated in place (they receive `is_meal` and `meal_type`), because the
catalog list is only shallow-copied. -/
theorem planTripSelect_preserves_unselected (dist : ℚ → ℚ → ℚ → ℚ → ℚ)
    (travel : TLoc → TLoc → ℚ) (locations : List TLoc) (customStart : Option TLoc)
    (startTime endTime threshold effThreshold : ℚ) (j : ℕ)
    (h : j ∉ (planTripSelect dist travel locations customStart startTime endTime
      threshold effThreshold).selected) :
    (planTripSelect dist travel locations customStart startTime endTime
        threshold effThreshold).store[j]? = locations[j]? := by
  unfold planTripSelect at h ⊢
  exact planTripSelectLoop_frame dist travel endTime threshold effThreshold
    locations.length _ j h

/-- Witness for the unselected-record frame theorem: in a two-location run
where only location 0 is selected, the record at index 1 is untouched. -/
theorem planTripSelect_preserves_unselected_witness :
    (1 ∉ (planTripSelect exDist exTravelLong [exLocA, exLocB] (some exStart)
        540 1200 30 (1/10)).selected) ∧
      (planTripSelect exDist exTravelLong [exLocA, exLocB] (some exStart)
          540 1200 30 (1/10)).store[1]? = ([exLocA, exLocB] : List TLoc)[1]? :=
  ⟨by norm_num [planTripSelect, planTripSelectLoop, planTripCommit, stage1Filter, stage2Best,
      mealWindow, hourOf, timeOfDay, getLoc, parseHours, mealLabels, exDist, exTravelLong,
      exStart, exLocA, exLocB, dfltTLoc, List.range, List.range.loop, List.cons_ne_nil],
    planTripSelect_preserves_unselected exDist exTravelLong [exLocA, exLocB] (some exStart)
      540 1200 30 (1/10) 1
      (by norm_num [planTripSelect, planTripSelectLoop, planTripCommit, stage1Filter, stage2Best,
        mealWindow, hourOf, timeOfDay, getLoc, parseHours, mealLabels, exDist, exTravelLong,
        exStart, exLocA, exLocB, dfltTLoc, List.range, List.range.loop, List.cons_ne_nil])⟩

/-- Claim C9 (counterexample): a concrete `plan_trip` run in which the
caller catalog record at index 0 comes back with `is_meal` set - its fields
do not all equal their pre-call values, because the selection loop mutates
the shared dict in place. -/
theorem planTrip_mutates_selected_record :
    ((planTrip exDist exTravelLong [exLocA] (some exStart) none 540 1200 30 (1/10)).2.headD
        dfltTLoc).isMeal = some false ∧
      exLocA.isMeal = none ∧ (some false ≠ (none : Option Bool)) := by
  refine ⟨?_, rfl, by simp⟩
  norm_num [planTrip, planTripSelect, planTripSelectLoop, planTripCommit, stage1Filter,
    stage2Best, mealWindow, hourOf, timeOfDay, getLoc, parseHours, mealLabels, exDist,
    exTravelLong, exStart, exLocA, dfltTLoc, List.range, List.range.loop, List.cons_ne_nil]

/-- Claim C2 (counterexample): a concrete `plan_trip` run whose return step
departs at 20:30 although the requested end time is 20:00 - the return
entry of lines 299-316 is appended at `current_time + return_travel`
without any comparison against `end_datetime`. -/
theorem planTrip_final_step_exceeds_end_time :
    ((planTrip exDist exTravelLong [exLocA] (some exStart) none 540 1200 30 (1/10)).1.map
        TEntry.endTime = [540, 730, 1230]) ∧ ¬((1230 : ℚ) ≤ 1200) := by
  refine ⟨?_, by norm_num⟩
  norm_num [planTrip, planTripSelect, planTripSelectLoop, planTripCommit, planTripGenerate,
    genVisits, stage1Filter, stage2Best, mealWindow, hourOf, timeOfDay, getLoc, parseHours,
    mealLabels, exDist, exTravelLong, exStart, exLocA, dfltTLoc, List.range, List.range.loop, List.cons_ne_nil]

/-- Claim C1 (counterexample): a concrete run in which the return leg misses
the end time by 20 minutes, and the itinerary nevertheless keeps the full
180-minute dwell of the single visit and the overshooting return entry -
no 30-minute trimming, no popping, and no failure result occur (the claimed
behaviour would shorten the dwell to 160 or less, or fail). -/
theorem planTrip_overrun_keeps_full_dwell :
    ((planTrip exDist exTravelShort [exLocA] (some exStart) none 540 1200 30 (1/10)).1.map
        TEntry.duration = [0, 180, 0]) ∧
      ((planTrip exDist exTravelShort [exLocA] (some exStart) none 540 1200 30 (1/10)).1.map
        TEntry.endTime = [540, 730, 1220]) ∧ ¬((1220 : ℚ) ≤ 1200) := by
  refine ⟨?_, ?_, by norm_num⟩
  · norm_num [planTrip, planTripSelect, planTripSelectLoop, planTripCommit, planTripGenerate,
      genVisits, stage1Filter, stage2Best, mealWindow, hourOf, timeOfDay, getLoc, parseHours,
      mealLabels, exDist, exTravelShort, exStart, exLocA, dfltTLoc, List.range, List.range.loop, List.cons_ne_nil]
  · norm_num [planTrip, planTripSelect, planTripSelectLoop, planTripCommit, planTripGenerate,
      genVisits, stage1Filter, stage2Best, mealWindow, hourOf, timeOfDay, getLoc, parseHours,
      mealLabels, exDist, exTravelShort, exStart, exLocA, dfltTLoc, List.range, List.range.loop, List.cons_ne_nil]
